import Mathlib

/-!
Shallow embedding of the core of the `websocket-chat-system-demo` gateway:
the Redis-backed presence directory (`internal/presence/presence.go`), the
per-instance connection registry (`internal/gateway/server.go`), the Kafka
router's consumer loop and wire message (`internal/router/kafka_router.go`,
`internal/router/router.go`), and the per-connection handler
(`internal/gateway/handler.go`).

Go conventions are translated as follows: `time.Now()` becomes an explicit
`now : Int` argument; Redis hashes become partial records with one `Option`
per field (HSET creates the hash when absent and merges fields); Redis I/O
never fails in the model (every claim under study is about the non-I/O-error
paths); `sync.Map` becomes an association list with overwrite-on-store
semantics; goroutine starts and log lines become effects in a trace.
-/

namespace WsDemo

/-! ## Presence directory (`internal/presence/presence.go`)

The Redis value at key `presence:{userId}` is a hash with (up to) three
fields `gwId`, `connId`, `ts`, plus a key TTL.  `Register` runs a Lua
script atomically: `HGET key ts`; if the stored `ts` exists and is strictly
greater than the incoming timestamp it returns 0 (stale) without touching
the key; otherwise it HSETs all three fields and EXPIREs the key.
`Refresh` unconditionally pipelines `HSET key ts now` and `EXPIRE`
(note: HSET creates the hash when the key is absent).  `Get` does HGETALL:
an empty result means offline; otherwise missing fields default to the Go
zero values (`""` for strings, `0` for the timestamp).  `Remove` is DEL. -/

/-- One Redis hash stored under `presence:{userId}`: each field is `Option`
because `Refresh` can create a hash holding only `ts`.  `ttl` is the key's
remaining TTL in seconds as last set. -/
structure PHash where
  gwId : Option String
  connId : Option String
  ts : Option Int
  ttl : Nat
  deriving Repr, DecidableEq

/-- The presence keyspace: `userId ↦ ` the hash at `presence:{userId}`,
`none` when the key is absent or expired. -/
def PresenceStore := String → Option PHash

/-- Empty keyspace. -/
def PresenceStore.empty : PresenceStore := fun _ => none

/-- `presenceTTL` = 90 seconds (3 × heartbeat interval). -/
def presenceTTL : Nat := 90

/-- Outcome of `Manager.Register` (Go reports `staleRejected` as the error
`"stale update rejected for user …"`; I/O errors are out of model). -/
inductive RegisterResult where
  | ok
  | staleRejected
  deriving Repr, DecidableEq

/-- The `HGET key ts` step of the Register Lua script. -/
def hgetTs (ps : PresenceStore) (userID : String) : Option Int :=
  (ps userID).bind (·.ts)

/-- `Manager.Register(ctx, userID, gatewayID, connID)` at wall clock `now`:
the atomic Lua script `read ts / compare / HSET all three fields / EXPIRE`,
as one pure transition on the keyspace. -/
def register (ps : PresenceStore) (userID gatewayID connID : String)
    (now : Int) : RegisterResult × PresenceStore :=
  match hgetTs ps userID with
  | some storedTs =>
    if storedTs > now then
      (.staleRejected, ps)
    else
      (.ok, fun u => if u = userID then
        some ⟨some gatewayID, some connID, some now, presenceTTL⟩ else ps u)
  | none =>
      (.ok, fun u => if u = userID then
        some ⟨some gatewayID, some connID, some now, presenceTTL⟩ else ps u)

/-- `Manager.Refresh(ctx, userID)` at wall clock `now`: unconditionally
`HSET key ts now` (creating the hash when the key is absent) and
`EXPIRE key presenceTTL`.  In Go this only fails on Redis I/O errors; an
absent key is not an error. -/
def refresh (ps : PresenceStore) (userID : String) (now : Int) :
    PresenceStore :=
  fun u => if u = userID then
    match ps userID with
    | some h => some { h with ts := some now, ttl := presenceTTL }
    | none => some ⟨none, none, some now, presenceTTL⟩
  else ps u

/-- The `presence.Info` struct returned by `Manager.Get`. -/
structure Info where
  userID : String
  gatewayID : String
  connID : String
  timestamp : Int
  deriving Repr, DecidableEq

/-- `Manager.Get(ctx, userID)`: HGETALL; an empty hash map means the user
is offline (`none` here, an error in Go); otherwise absent fields take the
Go zero values. -/
def getPresence (ps : PresenceStore) (userID : String) : Option Info :=
  match ps userID with
  | none => none
  | some h =>
      some ⟨userID, h.gwId.getD "", h.connId.getD "", h.ts.getD 0⟩

/-- `Manager.Remove(ctx, userID)`: unconditional DEL. -/
def removePresence (ps : PresenceStore) (userID : String) : PresenceStore :=
  fun u => if u = userID then none else ps u

/-! ## Router wire message (`internal/router/router.go`)

`router.Message` has four string fields with JSON tags `from`, `to`,
`content`, `type`.  The spec treats "any tagged-field encoding" as
compliant, so the wire object is modelled at the tagged-field level: a JSON
value, with `json.Marshal` producing an object holding the four tagged
fields and `json.Unmarshal` looking fields up by tag (unknown fields are
ignored, a missing field leaves the Go zero value `""`, duplicate keys
resolve to the last occurrence, and a non-string value for a string field
is a decode error). -/

/-- `router.Message` (`from`, `to` and `type` are Lean keywords or
tokens, hence the trailing underscores). -/
structure Message where
  from_ : String
  to_ : String
  content : String
  type_ : String
  deriving Repr, DecidableEq

/-- JSON values, restricted to the shapes this wire format can produce. -/
inductive Json where
  | str (s : String)
  | num (n : Int)
  | obj (fields : List (String × Json))

/-- `json.Marshal` on `router.Message`: an object with the four tagged
fields, in struct order. -/
def encodeMessage (m : Message) : Json :=
  .obj [("from", .str m.from_), ("to", .str m.to_),
        ("content", .str m.content), ("type", .str m.type_)]

/-- Field lookup as `encoding/json` resolves it: among the pairs whose key
matches, the last occurrence wins. -/
def lookupField (fields : List (String × Json)) (key : String) :
    Option Json :=
  fields.foldl (fun acc p => if p.1 = key then some p.2 else acc) none

/-- Reading one string-typed struct field: a missing field keeps the Go
zero value `""`; a present non-string value is a decode error. -/
def fieldAsString (fields : List (String × Json)) (key : String) :
    Option String :=
  match lookupField fields key with
  | none => some ""
  | some (.str s) => some s
  | some _ => none

/-- `json.Unmarshal` into `router.Message`: the payload must be an object;
each tagged field is read with `fieldAsString`; unknown fields are
ignored. -/
def decodeMessage (j : Json) : Option Message :=
  match j with
  | .obj fields => do
      let f ← fieldAsString fields "from"
      let t ← fieldAsString fields "to"
      let c ← fieldAsString fields "content"
      let ty ← fieldAsString fields "type"
      pure ⟨f, t, c, ty⟩
  | _ => none

/-! ## Kafka consumer loop (`internal/router/kafka_router.go`)

`kafkaConsumerHandler.ConsumeClaim` processes one inbound record at a
time: unmarshal (on failure: mark consumed and move to the next record);
then `for _, header := range msg.Headers { if key == "from_gateway" &&
value == gatewayID { session.MarkMessage(msg, ""); continue } }` — note
that this `continue` merely advances the *header* loop, which always runs
to completion; then `if h.handler != nil { h.handler(&routedMsg) }`; then a
final `session.MarkMessage`. -/

/-- Observable effects of processing one inbound Kafka record. -/
structure ConsumeEffects where
  /-- Number of `session.MarkMessage` calls made for this record. -/
  marks : Nat
  /-- Whether the local delivery handler was invoked for this record. -/
  handlerCalled : Bool
  deriving Repr, DecidableEq

/-- The header scan of `ConsumeClaim`, translated literally: each
iteration either calls `MarkMessage` and continues, or just continues;
either way the next header is examined, so the loop contributes one mark
per matching header and nothing else. -/
def headerScanMarks (gatewayID : String)
    (headers : List (String × String)) : Nat :=
  headers.foldl
    (fun marks h =>
      if h.1 = "from_gateway" ∧ h.2 = gatewayID then marks + 1 else marks)
    0

/-- One iteration of `ConsumeClaim` on a record whose decoded payload is
`decoded` (`none` = `json.Unmarshal` failed) carrying `headers`, for a
router with id `gatewayID` whose handler is set iff `handlerSet`. -/
def consumeOne (gatewayID : String) (handlerSet : Bool)
    (headers : List (String × String)) (decoded : Option Message) :
    ConsumeEffects :=
  match decoded with
  | none => { marks := 1, handlerCalled := false }
  | some _ =>
      { marks := headerScanMarks gatewayID headers + 1,
        handlerCalled := handlerSet }

/-- `KafkaRouter.getGatewayTopic`. -/
def getGatewayTopic (gatewayID : String) : String :=
  "gateway-" ++ gatewayID

/-- The headers `KafkaRouter.RouteToGateway` attaches to every produced
record (`timestamp` carries the producing wall clock). -/
def routeHeaders (gatewayID : String) (now : Int) :
    List (String × String) :=
  [("from_gateway", gatewayID), ("timestamp", toString now)]

/-! ## Connection registry (`internal/gateway/server.go`)

`Connection` carries `ID` (connId), `UserID` and `LastPing` (the socket
handle and its mutex are not observable in the model).
`ConnectionManager` keeps two `sync.Map`s, `userToConn : userID ↦ *Connection`
and `connToUser : connID ↦ *Connection`, modelled as association lists with
`Store`-overwrite semantics (storing a key erases any previous binding for
that key and conses the new one, so keys stay unique). -/

/-- `gateway.Connection` (observable fields). -/
structure Conn where
  id : String
  userID : String
  lastPing : Int
  deriving Repr, DecidableEq

/-- `sync.Map.Store`: overwrite any existing binding for the key. -/
def mapStore (k : String) (c : Conn) (l : List (String × Conn)) :
    List (String × Conn) :=
  (k, c) :: l.filter (fun p => p.1 ≠ k)

/-- `sync.Map.Delete`. -/
def mapDelete (k : String) (l : List (String × Conn)) :
    List (String × Conn) :=
  l.filter (fun p => p.1 ≠ k)

/-- `sync.Map.Load`. -/
def mapLoad (k : String) (l : List (String × Conn)) : Option Conn :=
  (l.find? (fun p => p.1 = k)).map (·.2)

/-- `gateway.ConnectionManager`: the two `sync.Map`s. -/
structure CM where
  userToConn : List (String × Conn)
  connToUser : List (String × Conn)
  deriving Repr, DecidableEq

/-- `NewConnectionManager()`. -/
def CM.empty : CM := ⟨[], []⟩

/-- `ConnectionManager.Add`: store into both maps; nothing else — in
particular no prior `connToUser` entry for the same user is removed. -/
def CM.add (conn : Conn) (cm : CM) : CM :=
  ⟨mapStore conn.userID conn cm.userToConn,
   mapStore conn.id conn cm.connToUser⟩

/-- `ConnectionManager.Remove`: delete from both maps by the connection's
own keys. -/
def CM.remove (conn : Conn) (cm : CM) : CM :=
  ⟨mapDelete conn.userID cm.userToConn,
   mapDelete conn.id cm.connToUser⟩

/-- `ConnectionManager.GetByUserID`. -/
def CM.getByUserID (userID : String) (cm : CM) : Option Conn :=
  mapLoad userID cm.userToConn

/-- `ConnectionManager.GetByConnID`. -/
def CM.getByConnID (connID : String) (cm : CM) : Option Conn :=
  mapLoad connID cm.connToUser

/-- `ConnectionManager.Count`: iterate `userToConn`. -/
def CM.count (cm : CM) : Nat := cm.userToConn.length

/-- `Connection.UpdatePing` mutates the shared `*Connection`, so the object
seen through both registry maps changes with it: every binding holding this
connection (same `id`) is updated in place. -/
def CM.updatePing (conn : Conn) (now : Int) (cm : CM) : CM :=
  let upd := fun (p : String × Conn) =>
    if p.2.id = conn.id then (p.1, { p.2 with lastPing := now }) else p
  ⟨cm.userToConn.map upd, cm.connToUser.map upd⟩

/-- The staleness test of `CheckHealth`: `now.Sub(conn.GetLastPing()) >
timeout`. -/
def staleAt (now timeout : Int) (c : Conn) : Prop :=
  now - c.lastPing > timeout

instance (now timeout : Int) (c : Conn) :
    Decidable (staleAt now timeout c) := by
  unfold staleAt; infer_instance

/-- `ConnectionManager.CheckHealth(timeout)` at wall clock `now`.  Phase 1
collects the stale connections by ranging over `userToConn` without
mutating anything; phase 2 closes each victim and removes it, counting.
Returns (removed count, closed connections in order, final registry). -/
def CM.checkHealth (now timeout : Int) (cm : CM) :
    Nat × List Conn × CM :=
  let victims :=
    (cm.userToConn.map (·.2)).filter (fun c => decide (staleAt now timeout c))
  (victims.length, victims, victims.foldl (fun acc c => CM.remove c acc) cm)

/-! ## Connection handler (`internal/gateway/handler.go`)

`Server.handleConnection` reads frames in a loop.  Handler-local state is
`userID` (initially `""`) and `wsConn` (initially `nil`).  Each loop
iteration decodes the frame and dispatches on `msg.Type`; after the loop
exits, the cleanup block runs iff `wsConn != nil`.  The model captures one
iteration as a pure step on (presence keyspace, registry, handler state)
that also emits a trace of observable effects in program order; the read
loop is a fold of that step, and teardown is a separate function. -/

/-- `gateway.ClientMessage` (decoded client frame). -/
structure ClientMessage where
  type_ : String
  to_ : String
  content : String
  userID : String
  deriving Repr, DecidableEq

/-- `gateway.ServerMessage` (frame written to the client; empty strings
stand for the omitted `omitempty` fields). -/
structure ServerMessage where
  type_ : String
  from_ : String
  content : String
  error : String
  deriving Repr, DecidableEq

/-- `Server.sendError`'s frame. -/
def errFrame (e : String) : ServerMessage := ⟨"error", "", "", e⟩

/-- One inbound websocket text frame, after `json.Unmarshal`:
`malformed` is a decode failure. -/
inductive Frame where
  | malformed
  | frame (msg : ClientMessage)
  deriving Repr, DecidableEq

/-- Observable effects of the handler, in program order. -/
inductive Effect where
  /-- a `ServerMessage` written to this client's socket -/
  | send (m : ServerMessage)
  /-- `ConnectionManager.Add` -/
  | cmAdd (c : Conn)
  /-- `ConnectionManager.Remove` -/
  | cmRemove (c : Conn)
  /-- `Presence.Register` call and its outcome -/
  | presRegisterCall (userID gatewayID connID : String) (r : RegisterResult)
  /-- `Presence.Refresh` call -/
  | presRefreshCall (userID : String)
  /-- `Presence.Remove` call -/
  | presRemoveCall (userID : String)
  /-- `Router.RouteToGateway(targetGatewayID, msg)` -/
  | route (targetGatewayID : String) (m : Message)
  /-- `go s.heartbeatChecker(ctx, wsConn)` started -/
  | hbStart (c : Conn)
  deriving Repr, DecidableEq

/-- Handler-local state: `var userID string; var wsConn *Connection`. -/
structure HState where
  userID : String
  wsConn : Option Conn
  deriving Repr, DecidableEq

/-- Initial handler state at loop entry. -/
def HState.init : HState := ⟨"", none⟩

/-- The state this gateway instance shares across handlers. -/
structure World where
  presence : PresenceStore
  connMgr : CM

/-- One iteration of the `handleConnection` read loop on frame `f`, for
gateway `gatewayID`, socket `connID`, at wall clock `now`. -/
def handleFrame (gatewayID connID : String) (now : Int) (w : World)
    (st : HState) (f : Frame) : World × HState × List Effect :=
  match f with
  | .malformed => (w, st, [.send (errFrame "Invalid message format")])
  | .frame msg =>
    if msg.type_ = "register" then
      if msg.userID = "" then
        (w, st, [.send (errFrame "UserID is required for registration")])
      else
        let userID := msg.userID
        let wsConn : Conn := ⟨connID, userID, now⟩
        let cm1 := CM.add wsConn w.connMgr
        match register w.presence userID gatewayID connID now with
        | (.staleRejected, ps1) =>
            (⟨ps1, cm1⟩, ⟨userID, some wsConn⟩,
             [.cmAdd wsConn,
              .presRegisterCall userID gatewayID connID .staleRejected,
              .send (errFrame "Failed to register")])
        | (.ok, ps1) =>
            (⟨ps1, cm1⟩, ⟨userID, some wsConn⟩,
             [.cmAdd wsConn,
              .presRegisterCall userID gatewayID connID .ok,
              .send ⟨"registered", "", "Successfully registered", ""⟩,
              .hbStart wsConn])
    else if msg.type_ = "ping" then
      match st.wsConn with
      | some c =>
          (⟨refresh w.presence st.userID now, CM.updatePing c now w.connMgr⟩,
           ⟨st.userID, some { c with lastPing := now }⟩,
           [.presRefreshCall st.userID, .send ⟨"pong", "", "", ""⟩])
      | none => (w, st, [.send ⟨"pong", "", "", ""⟩])
    else if msg.type_ = "message" then
      if st.userID = "" then
        (w, st, [.send (errFrame "Not registered")])
      else if msg.to_ = "" then
        (w, st, [.send (errFrame "Recipient is required")])
      else
        match getPresence w.presence msg.to_ with
        | none => (w, st, [.send (errFrame "Failed to send message")])
        | some info =>
            (w, st,
             [.route info.gatewayID ⟨st.userID, msg.to_, msg.content, "direct"⟩])
    else
      (w, st, [.send (errFrame "Unknown message type")])

/-- The whole read loop: iterate `handleFrame` over the frames received
before the read error that breaks the loop, accumulating the trace. -/
def runLoop (gatewayID connID : String) (now : Int) (w : World)
    (st : HState) : List Frame → World × HState × List Effect
  | [] => (w, st, [])
  | f :: rest =>
    let (w1, st1, tr1) := handleFrame gatewayID connID now w st f
    let (w2, st2, tr2) := runLoop gatewayID connID now w1 st1 rest
    (w2, st2, tr1 ++ tr2)

/-- The cleanup block after the read loop: iff `wsConn != nil`, remove the
connection from the registry and delete the user's presence key. -/
def teardown (w : World) (st : HState) : World × List Effect :=
  match st.wsConn with
  | some c =>
      (⟨removePresence w.presence st.userID, CM.remove c w.connMgr⟩,
       [.cmRemove c, .presRemoveCall st.userID])
  | none => (w, [])

/-- `Server.deliverMessage` (router callback): look the recipient up in
the local registry; if absent drop silently, else write the message frame
to that connection. -/
def deliverMessage (cm : CM) (msg : Message) : Option (Conn × ServerMessage) :=
  (CM.getByUserID msg.to_ cm).map
    (fun c => (c, ⟨"message", msg.from_, msg.content, ""⟩))

/-- Frames written to this client's socket, extracted from a trace. -/
def sentFrames (tr : List Effect) : List ServerMessage :=
  tr.filterMap (fun e => match e with | .send m => some m | _ => none)

/-- `RouteToGateway` calls extracted from a trace. -/
def routedCalls (tr : List Effect) : List (String × Message) :=
  tr.filterMap (fun e => match e with | .route g m => some (g, m) | _ => none)

/-- Whether a heartbeat watcher was started anywhere in a trace. -/
def hbStarted (tr : List Effect) : Bool :=
  tr.any (fun e => match e with | .hbStart _ => true | _ => false)

/-! ## Concrete fixtures used by witnesses and counterexamples -/

/-- A keyspace holding one record for `alice`, written by gateway `G1`
at ts 200. -/
def psStale : PresenceStore :=
  fun u => if u = "alice" then
    some ⟨some "G1", some "k1", some 200, presenceTTL⟩ else none

/-- Alice's first connection (fixture). -/
def connA1 : Conn := ⟨"k1", "alice", 10⟩

/-- Alice's reconnect with a fresh connId (fixture). -/
def connA2 : Conn := ⟨"k2", "alice", 120⟩

/-- Bob's connection (fixture). -/
def connB : Conn := ⟨"kb", "bob", 150⟩

/-- A two-user registry: a stale `alice` and a fresh `bob` (fixture). -/
def cmSweep : CM := CM.add connB (CM.add connA1 CM.empty)

/-- Registry well-formedness as maintained by `Add`/`Remove` on distinct
users and per-socket-unique connIds: `userToConn` keys by the owner
(`(I1)`), keys and connIds are duplicate-free, and `connToUser` mirrors
`userToConn` keyed by connId. -/
def CM.WF (cm : CM) : Prop :=
  (∀ p ∈ cm.userToConn, p.2.userID = p.1) ∧
  (cm.userToConn.map Prod.fst).Nodup ∧
  (cm.userToConn.map (·.2.id)).Nodup ∧
  cm.connToUser = cm.userToConn.map (fun p => (p.2.id, p.2))

/-! ## Theorems -/

/-- C1: `Register(userId, gatewayId, connId)` follows the timestamp-CAS
rule: when a stored record carries a timestamp strictly greater than the
incoming one the call returns `staleRejected` and the whole keyspace (in
particular the stored `gwId`, `connId`, `ts`, TTL) is untouched;
otherwise the call succeeds and, in the single atomic script, the user's
hash holds exactly the three new fields with a reset TTL while every
other key is untouched. -/
theorem register_cas_spec (ps : PresenceStore) (u g c : String) (now : Int) :
    (∀ t, hgetTs ps u = some t → now < t →
      register ps u g c now = (.staleRejected, ps)) ∧
    ((∀ t, hgetTs ps u = some t → t ≤ now) →
      (register ps u g c now).1 = .ok ∧
      (register ps u g c now).2 u =
        some ⟨some g, some c, some now, presenceTTL⟩ ∧
      ∀ v, v ≠ u → (register ps u g c now).2 v = ps v) := by
  constructor
  · intro t ht hlt
    unfold register
    rw [ht]
    simp [hlt]
  · intro hle
    unfold register
    cases h : hgetTs ps u with
    | none =>
      simp
      exact fun v hv hv2 => absurd hv2 hv
    | some t =>
      have hn : ¬ (t > now) := not_lt.mpr (hle t h)
      simp [hn]
      exact fun v hv hv2 => absurd hv2 hv

/-- Witness for C1: a stale write against the `alice` record of `psStale`
(stored ts 200, incoming ts 100) is rejected without touching the store,
and a write into the empty keyspace lands all three fields with the
90-second TTL. -/
theorem register_cas_spec_witness :
    register psStale "alice" "G2" "k2" 100 = (.staleRejected, psStale) ∧
    (register PresenceStore.empty "alice" "G1" "k1" 100).2 "alice" =
      some ⟨some "G1", some "k1", some 100, presenceTTL⟩ := by
  refine ⟨(register_cas_spec psStale "alice" "G2" "k2" 100).1 200 rfl
      (by decide), ?_⟩
  have h := (register_cas_spec PresenceStore.empty "alice" "G1" "k1" 100).2
    (fun t ht => by simp [hgetTs, PresenceStore.empty] at ht)
  exact h.2.1

/-- C9: for every well-formed routed message, decoding the JSON encoding
of the `router.Message` wire object yields the message back — the
encode/decode round-trip is the identity. -/
theorem decode_encode_roundtrip (m : Message) :
    decodeMessage (encodeMessage m) = some m := rfl

/-- In `kafkaConsumerHandler.ConsumeClaim` the self-loop guard's
`continue` sits inside `for _, header := range msg.Headers` and therefore
only advances the header loop; control always reaches the
`h.handler(&routedMsg)` call.  So for every successfully decoded inbound
record — whatever its headers — the delivery handler is invoked. -/
theorem consumeClaim_always_invokes_handler (gatewayID : String)
    (headers : List (String × String)) (m : Message) :
    (consumeOne gatewayID true headers (some m)).handlerCalled = true := rfl

/-- C2: refuted on the source, evaluated at the failing input.  A record
produced by gateway `G1` (header `from_gateway = G1`) and consumed by
`G1` itself is not skipped: the delivery handler runs, and the record is
even marked twice (once by the guard, once after the handler), because
the guard's `continue` only advances the inner header loop. -/
theorem consume_self_message_not_skipped :
    consumeOne "G1" true (routeHeaders "G1" 170) (some ⟨"alice", "bob", "hi", "direct"⟩) =
      { marks := 2, handlerCalled := true } := by decide

/-- C3: refuted on the source.  `ConnectionManager.Add` only stores into
both maps; it never deletes the superseded connection's `connToUser`
entry.  After `alice` reconnects with connId `k2`, the entry for her old
connId `k1` is still present and still points at the old connection. -/
theorem add_supersession_leaves_stale_byconn_entry :
    CM.getByConnID "k1" (CM.add connA2 (CM.add connA1 CM.empty)) =
        some connA1 ∧
    CM.getByUserID "alice" (CM.add connA2 (CM.add connA1 CM.empty)) =
        some connA2 := by decide

/-- C5: refuted on the source.  `Manager.Refresh` pipelines an
unconditional `HSET key ts now` + `EXPIRE`: with no stored record for
`alice`, the HSET creates the hash, so Refresh succeeds (the Go function
only fails on Redis I/O errors — there is no notFound outcome) and a
subsequent `Get` reports her online (with zero-valued `gwId`/`connId`)
rather than offline. -/
theorem refresh_absent_creates_record :
    refresh PresenceStore.empty "alice" 100 "alice" =
        some ⟨none, none, some 100, presenceTTL⟩ ∧
    getPresence (refresh PresenceStore.empty "alice" 100) "alice" =
        some ⟨"alice", "", "", 100⟩ := ⟨rfl, rfl⟩

/-- C5 amended: for every userId with no stored presence record,
`Refresh(userId)` succeeds and creates a partial record holding only the
new timestamp with a fresh TTL; afterwards `Lookup(userId)` reports the
user online with empty gatewayId and connId, while every other key is
untouched. -/
theorem refresh_absent_spec (ps : PresenceStore) (u : String) (now : Int)
    (h : ps u = none) :
    refresh ps u now u = some ⟨none, none, some now, presenceTTL⟩ ∧
    getPresence (refresh ps u now) u = some ⟨u, "", "", now⟩ ∧
    ∀ v, v ≠ u → refresh ps u now v = ps v := by
  refine ⟨?_, ?_, ?_⟩
  · simp [refresh, h]
  · simp [getPresence, refresh, h]
  · intro v hv
    simp [refresh, hv]

/-- Witness for C5's amended theorem at the empty keyspace and `alice`. -/
theorem refresh_absent_spec_witness :
    getPresence (refresh PresenceStore.empty "alice" 100) "alice" =
        some ⟨"alice", "", "", 100⟩ :=
  (refresh_absent_spec PresenceStore.empty "alice" 100 rfl).2.1

/-! ### Shared helper lemmas -/

/-- The Register script rejects against a strictly newer stored ts. -/
theorem register_stale (ps : PresenceStore) (u g c : String) (now t : Int)
    (ht : hgetTs ps u = some t) (h : now < t) :
    register ps u g c now = (.staleRejected, ps) := by
  unfold register
  rw [ht]
  simp [h]

/-- Loading a key right after storing it yields the stored connection. -/
theorem mapLoad_store_self (k : String) (c : Conn)
    (l : List (String × Conn)) : mapLoad k (mapStore k c l) = some c := by
  simp [mapLoad, mapStore, List.find?]

/-- Loading a key right after deleting it yields nothing. -/
theorem mapLoad_delete_self (k : String) (l : List (String × Conn)) :
    mapLoad k (mapDelete k l) = none := by
  simp only [mapLoad, mapDelete]
  rw [List.find?_eq_none.mpr]
  · rfl
  · intro x hx
    have hne := (List.mem_filter.mp hx).2
    simp at hne ⊢
    exact hne

/-- C4: refuted on the source.  On a register frame for `alice` whose
presence write is stale-rejected (stored ts 200 > incoming ts 100), the
handler does not stay silent towards the client: it writes exactly one
`{"type":"error","error":"Failed to register"}` frame to the registering
socket. -/
theorem stale_register_sends_error_frame :
    errFrame "Failed to register" ∈
      sentFrames (handleFrame "G1" "k9" 100 ⟨psStale, CM.empty⟩ HState.init
        (.frame ⟨"register", "", "", "alice"⟩)).2.2 ∧
    sentFrames (handleFrame "G1" "k9" 100 ⟨psStale, CM.empty⟩ HState.init
        (.frame ⟨"register", "", "", "alice"⟩)).2.2 =
      [errFrame "Failed to register"] := by decide

/-- C4 amended: on every register frame with non-empty userId whose
`Presence.Register` is rejected as stale, the handler leaves the keyspace
unmodified but sends the error frame `Failed to register` to the
registering client (the rejection is propagated), sends no `registered`
confirmation, and starts no heartbeat watcher; the connection stays in
the registry. -/
theorem stale_register_step_spec (g k : String) (now : Int)
    (ps : PresenceStore) (cm : CM) (st : HState) (u : String)
    (hu : u ≠ "") (t : Int) (ht : hgetTs ps u = some t) (hstale : now < t) :
    handleFrame g k now ⟨ps, cm⟩ st (.frame ⟨"register", "", "", u⟩) =
      (⟨ps, CM.add ⟨k, u, now⟩ cm⟩, ⟨u, some ⟨k, u, now⟩⟩,
       [.cmAdd ⟨k, u, now⟩, .presRegisterCall u g k .staleRejected,
        .send (errFrame "Failed to register")]) := by
  simp [handleFrame, hu, register_stale ps u g k now t ht hstale]

/-- Witness for C4's amended theorem: the concrete stale registration of
`alice` against `psStale` (stored ts 200, wall clock 100). -/
theorem stale_register_step_spec_witness :
    handleFrame "G1" "k9" 100 ⟨psStale, CM.empty⟩ HState.init
        (.frame ⟨"register", "", "", "alice"⟩) =
      (⟨psStale, CM.add ⟨"k9", "alice", 100⟩ CM.empty⟩,
       ⟨"alice", some ⟨"k9", "alice", 100⟩⟩,
       [.cmAdd ⟨"k9", "alice", 100⟩,
        .presRegisterCall "alice" "G1" "k9" .staleRejected,
        .send (errFrame "Failed to register")]) :=
  stale_register_step_spec "G1" "k9" 100 psStale CM.empty HState.init
    "alice" (by decide) 200 rfl (by decide)

/-- C10: on a register frame with non-empty userId, the handler adds the
connection to the registry *before* the `Presence.Register` call (the
trace order below), and a presence failure does not undo the add: the
error frame goes to the client, no heartbeat watcher starts, yet
`GetByUserID` still returns the connection and `deliverMessage` for that
user still finds and serves it. -/
theorem register_failure_keeps_connection (g k : String) (now : Int)
    (ps : PresenceStore) (cm : CM) (st : HState) (u fr ct : String)
    (hu : u ≠ "") (t : Int) (ht : hgetTs ps u = some t) (hstale : now < t) :
    (handleFrame g k now ⟨ps, cm⟩ st (.frame ⟨"register", "", "", u⟩)).2.2 =
      [.cmAdd ⟨k, u, now⟩, .presRegisterCall u g k .staleRejected,
       .send (errFrame "Failed to register")] ∧
    CM.getByUserID u
        (handleFrame g k now ⟨ps, cm⟩ st
          (.frame ⟨"register", "", "", u⟩)).1.connMgr = some ⟨k, u, now⟩ ∧
    deliverMessage
        (handleFrame g k now ⟨ps, cm⟩ st
          (.frame ⟨"register", "", "", u⟩)).1.connMgr ⟨fr, u, ct, "direct"⟩ =
      some (⟨k, u, now⟩, ⟨"message", fr, ct, ""⟩) ∧
    hbStarted
      (handleFrame g k now ⟨ps, cm⟩ st
        (.frame ⟨"register", "", "", u⟩)).2.2 = false := by
  have hstep :
      handleFrame g k now ⟨ps, cm⟩ st (.frame ⟨"register", "", "", u⟩) =
        (⟨ps, CM.add ⟨k, u, now⟩ cm⟩, ⟨u, some ⟨k, u, now⟩⟩,
         [.cmAdd ⟨k, u, now⟩, .presRegisterCall u g k .staleRejected,
          .send (errFrame "Failed to register")]) := by
    simp [handleFrame, hu, register_stale ps u g k now t ht hstale]
  rw [hstep]
  refine ⟨rfl, ?_, ?_, rfl⟩
  · simpa [CM.getByUserID, CM.add] using mapLoad_store_self u ⟨k, u, now⟩ cm.userToConn
  · simp only [deliverMessage, CM.getByUserID, CM.add]
    rw [mapLoad_store_self]
    rfl

/-- Witness for C10: the concrete stale registration of `alice` against
`psStale`; her connection survives in the registry and local delivery to
her still succeeds. -/
theorem register_failure_keeps_connection_witness :
    CM.getByUserID "alice"
        (handleFrame "G1" "k9" 100 ⟨psStale, CM.empty⟩ HState.init
          (.frame ⟨"register", "", "", "alice"⟩)).1.connMgr =
      some ⟨"k9", "alice", 100⟩ ∧
    deliverMessage
        (handleFrame "G1" "k9" 100 ⟨psStale, CM.empty⟩ HState.init
          (.frame ⟨"register", "", "", "alice"⟩)).1.connMgr
        ⟨"bob", "alice", "hi", "direct"⟩ =
      some (⟨"k9", "alice", 100⟩, ⟨"message", "bob", "hi", ""⟩) :=
  ⟨(register_failure_keeps_connection "G1" "k9" 100 psStale CM.empty
      HState.init "alice" "bob" "hi" (by decide) 200 rfl (by decide)).2.1,
   (register_failure_keeps_connection "G1" "k9" 100 psStale CM.empty
      HState.init "alice" "bob" "hi" (by decide) 200 rfl (by decide)).2.2.1⟩

/-- C6: on a message frame from a registered sender to a non-empty
recipient whose presence key is absent (offline), the handler writes
exactly one error frame to the sender, calls `RouteToGateway` for no
gateway, and leaves the shared state and its own state untouched — the
read loop continues on the open socket. -/
theorem offline_recipient_spec (g k : String) (now : Int)
    (ps : PresenceStore) (cm : CM) (st : HState) (toU ct uid : String)
    (hreg : st.userID ≠ "") (hto : toU ≠ "") (hoff : ps toU = none) :
    handleFrame g k now ⟨ps, cm⟩ st (.frame ⟨"message", toU, ct, uid⟩) =
      (⟨ps, cm⟩, st, [.send (errFrame "Failed to send message")]) ∧
    routedCalls
      (handleFrame g k now ⟨ps, cm⟩ st
        (.frame ⟨"message", toU, ct, uid⟩)).2.2 = [] := by
  have hg : getPresence ps toU = none := by simp [getPresence, hoff]
  constructor
  · simp [handleFrame, hreg, hto, hg]
  · simp [handleFrame, hreg, hto, hg, routedCalls]

/-- Witness for C6: registered `alice` sends to `bob` against the empty
keyspace; she gets the error frame and nothing is routed. -/
theorem offline_recipient_spec_witness :
    handleFrame "G1" "k1" 100 ⟨PresenceStore.empty, CM.empty⟩
        ⟨"alice", some connA1⟩ (.frame ⟨"message", "bob", "hi", ""⟩) =
      (⟨PresenceStore.empty, CM.empty⟩, ⟨"alice", some connA1⟩,
       [.send (errFrame "Failed to send message")]) :=
  (offline_recipient_spec "G1" "k1" 100 PresenceStore.empty CM.empty
    ⟨"alice", some connA1⟩ "bob" "hi" "" (by decide) (by decide) rfl).1

/-- If one read-loop iteration ends with `wsConn = nil`, the handler
state is exactly as before the iteration and the iteration performed no
`ConnectionRegistry.Add`. -/
theorem handleFrame_unauth (g k : String) (now : Int) (w : World)
    (st : HState) (f : Frame)
    (h : (handleFrame g k now w st f).2.1.wsConn = none) :
    (handleFrame g k now w st f).2.1 = st ∧
    ∀ c, Effect.cmAdd c ∉ (handleFrame g k now w st f).2.2 := by
  cases f with
  | malformed => simp [handleFrame]
  | frame msg =>
    by_cases h1 : msg.type_ = "register"
    · by_cases h2 : msg.userID = ""
      · simp [handleFrame, h1, h2]
      · exfalso
        rcases hreg : register w.presence msg.userID g k now with ⟨res, ps1⟩
        cases res <;> simp [handleFrame, h1, h2, hreg] at h
    · by_cases h3 : msg.type_ = "ping"
      · cases hsw : st.wsConn with
        | some c => simp [handleFrame, h1, h3, hsw] at h
        | none => simp [handleFrame, h1, h3, hsw]
      · by_cases h4 : msg.type_ = "message"
        · by_cases h5 : st.userID = ""
          · simp [handleFrame, h1, h3, h4, h5]
          · by_cases h6 : msg.to_ = ""
            · simp [handleFrame, h1, h3, h4, h5, h6]
            · cases hgp : getPresence w.presence msg.to_ with
              | none => simp [handleFrame, h1, h3, h4, h5, h6, hgp]
              | some info => simp [handleFrame, h1, h3, h4, h5, h6, hgp]
        · simp [handleFrame, h1, h3, h4]

/-- If the whole read loop exits with `wsConn = nil`, no registration
ever occurred during the loop: the state is still the entry state and the
trace holds no `ConnectionRegistry.Add`. -/
theorem runLoop_unauth (g k : String) (now : Int) (w : World)
    (st : HState) (frames : List Frame)
    (h : (runLoop g k now w st frames).2.1.wsConn = none) :
    (runLoop g k now w st frames).2.1 = st ∧
    ∀ c, Effect.cmAdd c ∉ (runLoop g k now w st frames).2.2 := by
  induction frames generalizing w st with
  | nil => simp [runLoop]
  | cons f rest ih =>
    rcases h1 : handleFrame g k now w st f with ⟨w1, st1tr⟩
    rcases st1tr with ⟨st1, tr1⟩
    rcases h2 : runLoop g k now w1 st1 rest with ⟨w2, st2tr⟩
    rcases st2tr with ⟨st2, tr2⟩
    simp only [runLoop, h1, h2] at h ⊢
    obtain ⟨hst2, htr2⟩ := ih w1 st1 (by rw [h2]; exact h)
    have hst2' : st2 = st1 := by rw [h2] at hst2; exact hst2
    have htr2' : ∀ c, Effect.cmAdd c ∉ tr2 := by rw [h2] at htr2; exact htr2
    have hst1 : st1.wsConn = none := hst2' ▸ h
    obtain ⟨hst1eq, htr1⟩ := handleFrame_unauth g k now w st f
      (by rw [h1]; exact hst1)
    have hst1' : st1 = st := by rw [h1] at hst1eq; exact hst1eq
    have htr1' : ∀ c, Effect.cmAdd c ∉ tr1 := by rw [h1] at htr1; exact htr1
    refine ⟨hst2'.trans hst1', ?_⟩
    intro c hc
    rcases List.mem_append.mp hc with hc1 | hc2
    · exact htr1' c hc1
    · exact htr2' c hc2

/-- C7: teardown after the read loop.  If the loop exits with no
registration ever having occurred (`wsConn` still nil — equivalently, per
`runLoop_unauth`, no `Add` in the trace), teardown changes neither the
registry nor the presence directory; if the loop exits registered with
connection `c`, teardown removes `c` from both registry indices and
deletes the user's presence key. -/
theorem handler_teardown_spec (g k : String) (now : Int) (w : World)
    (frames : List Frame) :
    ((runLoop g k now w HState.init frames).2.1.wsConn = none →
      (∀ c, Effect.cmAdd c ∉ (runLoop g k now w HState.init frames).2.2) ∧
      teardown (runLoop g k now w HState.init frames).1
          (runLoop g k now w HState.init frames).2.1 =
        ((runLoop g k now w HState.init frames).1, [])) ∧
    (∀ c, (runLoop g k now w HState.init frames).2.1.wsConn = some c →
      (teardown (runLoop g k now w HState.init frames).1
          (runLoop g k now w HState.init frames).2.1).1.presence
        (runLoop g k now w HState.init frames).2.1.userID = none ∧
      CM.getByUserID c.userID
        (teardown (runLoop g k now w HState.init frames).1
          (runLoop g k now w HState.init frames).2.1).1.connMgr = none ∧
      CM.getByConnID c.id
        (teardown (runLoop g k now w HState.init frames).1
          (runLoop g k now w HState.init frames).2.1).1.connMgr = none ∧
      (teardown (runLoop g k now w HState.init frames).1
          (runLoop g k now w HState.init frames).2.1).2 =
        [.cmRemove c,
         .presRemoveCall (runLoop g k now w HState.init frames).2.1.userID]) := by
  constructor
  · intro hnone
    refine ⟨(runLoop_unauth g k now w HState.init frames hnone).2, ?_⟩
    simp [teardown, hnone]
  · intro c hsome
    simp only [teardown, hsome]
    refine ⟨by simp [removePresence], ?_, ?_, by simp⟩
    · simpa [CM.getByUserID, CM.remove] using
        mapLoad_delete_self c.userID
          (runLoop g k now w HState.init frames).1.connMgr.userToConn
    · simpa [CM.getByConnID, CM.remove] using
        mapLoad_delete_self c.id
          (runLoop g k now w HState.init frames).1.connMgr.connToUser

/-- Witness for C7: a run consisting of a single successful registration
of `alice` on the empty instance; teardown then clears both her presence
key and both registry indices. -/
theorem handler_teardown_spec_witness :
    (teardown
        (runLoop "G1" "k9" 100 ⟨PresenceStore.empty, CM.empty⟩ HState.init
          [.frame ⟨"register", "", "", "alice"⟩]).1
        (runLoop "G1" "k9" 100 ⟨PresenceStore.empty, CM.empty⟩ HState.init
          [.frame ⟨"register", "", "", "alice"⟩]).2.1).1.presence
      "alice" = none ∧
    CM.getByUserID "alice"
      (teardown
        (runLoop "G1" "k9" 100 ⟨PresenceStore.empty, CM.empty⟩ HState.init
          [.frame ⟨"register", "", "", "alice"⟩]).1
        (runLoop "G1" "k9" 100 ⟨PresenceStore.empty, CM.empty⟩ HState.init
          [.frame ⟨"register", "", "", "alice"⟩]).2.1).1.connMgr = none := by
  have h := (handler_teardown_spec "G1" "k9" 100
      ⟨PresenceStore.empty, CM.empty⟩
      [.frame ⟨"register", "", "", "alice"⟩]).2
    ⟨"k9", "alice", 100⟩ rfl
  exact ⟨h.1, h.2.1⟩

/-- Phase 2 of the sweep on the `userToConn` side: removing each victim
in turn keeps exactly the entries keyed by no victim's userID. -/
theorem foldl_remove_userToConn (vs : List Conn) (cm : CM) :
    (vs.foldl (fun acc c => CM.remove c acc) cm).userToConn =
      cm.userToConn.filter (fun p => vs.all (fun v => v.userID ≠ p.1)) := by
  induction vs generalizing cm with
  | nil => simp
  | cons v vs ih =>
    simp only [List.foldl_cons]
    rw [ih]
    simp only [CM.remove, mapDelete]
    rw [List.filter_filter]
    apply List.filter_congr
    intro p _
    simp [List.all_cons, Bool.and_comm, ne_comm]

/-- Phase 2 of the sweep on the `connToUser` side: removing each victim
in turn keeps exactly the entries keyed by no victim's connId. -/
theorem foldl_remove_connToUser (vs : List Conn) (cm : CM) :
    (vs.foldl (fun acc c => CM.remove c acc) cm).connToUser =
      cm.connToUser.filter (fun p => vs.all (fun v => v.id ≠ p.1)) := by
  induction vs generalizing cm with
  | nil => simp
  | cons v vs ih =>
    simp only [List.foldl_cons]
    rw [ih]
    simp only [CM.remove, mapDelete]
    rw [List.filter_filter]
    apply List.filter_congr
    intro p _
    simp [List.all_cons, Bool.and_comm, ne_comm, eq_comm]

/-- For an entry of a well-keyed, duplicate-free `userToConn`, "no victim
carries my key" is the same as "I am not stale". -/
theorem victims_all_userID_iff (cm : CM) (now T : Int)
    (wfU : ∀ p ∈ cm.userToConn, p.2.userID = p.1)
    (nodupU : (cm.userToConn.map Prod.fst).Nodup)
    (p : String × Conn) (hp : p ∈ cm.userToConn) :
    ((cm.userToConn.map (·.2)).filter
        (fun c => decide (staleAt now T c))).all
      (fun v => v.userID ≠ p.1) = !decide (staleAt now T p.2) := by
  rw [Bool.eq_iff_iff]
  simp only [List.all_eq_true, List.mem_filter, List.mem_map,
    decide_eq_true_eq, Bool.not_eq_true', decide_eq_false_iff_not, ne_eq]
  constructor
  · intro hall hs
    exact hall p.2 ⟨⟨p, hp, rfl⟩, hs⟩ (wfU p hp)
  · rintro hns v ⟨⟨q, hq, rfl⟩, hstale⟩ hkey
    have hq1 : q.1 = p.1 := by rw [← wfU q hq]; exact hkey
    have : q = p := List.inj_on_of_nodup_map nodupU hq hp hq1
    exact hns (this ▸ hstale)

/-- For an entry of `userToConn` with duplicate-free connIds, "no victim
carries my connId" is the same as "I am not stale". -/
theorem victims_all_id_iff (cm : CM) (now T : Int)
    (nodupI : (cm.userToConn.map (·.2.id)).Nodup)
    (p : String × Conn) (hp : p ∈ cm.userToConn) :
    ((cm.userToConn.map (·.2)).filter
        (fun c => decide (staleAt now T c))).all
      (fun v => v.id ≠ p.2.id) = !decide (staleAt now T p.2) := by
  rw [Bool.eq_iff_iff]
  simp only [List.all_eq_true, List.mem_filter, List.mem_map,
    decide_eq_true_eq, Bool.not_eq_true', decide_eq_false_iff_not, ne_eq]
  constructor
  · intro hall hs
    exact hall p.2 ⟨⟨p, hp, rfl⟩, hs⟩ rfl
  · rintro hns v ⟨⟨q, hq, rfl⟩, hstale⟩ hkey
    have : q = p := List.inj_on_of_nodup_map nodupI hq hp hkey
    exact hns (this ▸ hstale)

/-- C8: `CheckHealth(T)` at sweep entry time `now`, on a well-formed
registry, closes exactly the connections whose `lastPing` is older than
`T` (first phase, collected without mutating the maps), returns their
count, and afterwards both registry indices hold exactly the entries for
the non-stale connections — no others were removed. -/
theorem checkHealth_sweeps_exactly_stale (cm : CM) (now T : Int)
    (hwf : CM.WF cm) :
    (CM.checkHealth now T cm).2.1 =
      (cm.userToConn.map (·.2)).filter (fun c => decide (staleAt now T c)) ∧
    (CM.checkHealth now T cm).1 = (CM.checkHealth now T cm).2.1.length ∧
    (CM.checkHealth now T cm).2.2.userToConn =
      cm.userToConn.filter (fun p => !decide (staleAt now T p.2)) ∧
    (CM.checkHealth now T cm).2.2.connToUser =
      cm.connToUser.filter (fun p => !decide (staleAt now T p.2)) := by
  obtain ⟨wfU, nodupU, nodupI, hmirror⟩ := hwf
  refine ⟨rfl, rfl, ?_, ?_⟩
  · show ((((cm.userToConn.map (·.2)).filter
        (fun c => decide (staleAt now T c))).foldl
          (fun acc c => CM.remove c acc) cm)).userToConn = _
    rw [foldl_remove_userToConn]
    exact List.filter_congr
      (fun p hp => victims_all_userID_iff cm now T wfU nodupU p hp)
  · show ((((cm.userToConn.map (·.2)).filter
        (fun c => decide (staleAt now T c))).foldl
          (fun acc c => CM.remove c acc) cm)).connToUser = _
    rw [foldl_remove_connToUser, hmirror]
    apply List.filter_congr
    intro x hx
    obtain ⟨q, hq, rfl⟩ := List.mem_map.mp hx
    exact victims_all_id_iff cm now T nodupI q hq

/-- Witness for C8: sweeping `cmSweep` (stale `alice`, fresh `bob`) at
`now = 200` with `T = 90` closes exactly `alice`'s connection, reports
one removal, and leaves only `bob` in both indices. -/
theorem checkHealth_sweeps_exactly_stale_witness :
    (CM.checkHealth 200 90 cmSweep).2.1 = [connA1] ∧
    (CM.checkHealth 200 90 cmSweep).1 = 1 ∧
    (CM.checkHealth 200 90 cmSweep).2.2.userToConn = [("bob", connB)] := by
  have h := checkHealth_sweeps_exactly_stale cmSweep 200 90
    ⟨by decide, by decide, by decide, by decide⟩
  refine ⟨?_, ?_, ?_⟩
  · rw [h.1]; decide
  · rw [h.2.1, h.1]; decide
  · rw [h.2.2.1]; decide

end WsDemo
